import Mathlib

/-!
Shallow embedding of the bit-level decoders of qzsl6tool
(`src/python/libssr.py`, `src/python/libeph.py`) together with proofs that
settle the specification claims about them.

Modelling conventions, fixed throughout:

* A payload (a `bitstring` bit sequence) is a `List Bool`, most significant
  bit first.  `payload[a:b]` is `pySlice`, which truncates silently at the
  end of the buffer, exactly like Python slicing.
* `.uint` / `.int` of a slice are `bitsToNat` / `bitsToInt`; applied to an
  empty slice the library raises `InterpretError`.  Where the source guards
  a read by an explicit length check the read is embedded as a total
  function (the guard makes the slice full width on every reachable path);
  where the source reads unguarded, the read is `readUintT` / `readIntT`
  returning `Except`.
* `bitstring` truthiness of a `Bits` value is length-based
  (`Bits.__bool__` is `len(self) != 0`), so a one-bit slice is truthy even
  when its bit is 0.  This is embedded literally where the source branches
  on a slice value (`if cmavail:` in `_decode_mask`).
* Python `float` arithmetic is modelled by exact `ℚ`.  The claims settled
  here depend only on zero-ness, sign, and branch selection of scaled
  values, never on floating-point rounding.
* A Python value that is either the `int` constant `INVALID` or a scaled
  `float` is modelled by `PyNum`, which keeps the two branches exactly as
  distinguishable as Python keeps them; `PyNum.val` is the numeric value
  (what `==` comparison and numeric formatting observe).
* Raised exceptions are `Except.error` of a `PyErr` naming the Python
  exception class.  Trace strings are not modelled; where a decoder trace
  is the observable output of a loop, the embedding returns a list of
  records carrying the decoded fields in emission order instead.
-/

namespace QzsL6

/-- Unsigned big-endian value of a bit sequence (`Bits.uint`). -/
def bitsToNat : List Bool → ℕ
  | [] => 0
  | b :: rest => (if b then 1 else 0) * 2 ^ rest.length + bitsToNat rest

/-- Two's-complement reading of an `n`-bit unsigned value. -/
def twosComp (n u : ℕ) : ℤ :=
  if (u : ℤ) < 2 ^ (n - 1) then (u : ℤ) else (u : ℤ) - 2 ^ n

/-- Signed big-endian value of a bit sequence (`Bits.int`). -/
def bitsToInt (l : List Bool) : ℤ := twosComp l.length (bitsToNat l)

/-- Python slice `payload[a:b]` on a bit sequence: truncates, never raises. -/
def pySlice (p : List Bool) (a b : ℕ) : List Bool := (p.drop a).take (b - a)

/-- Python exception classes raised by the embedded code paths. -/
inductive PyErr where
  | interpretError
  | indexError
  | nameError
  | readError
  | exception
deriving DecidableEq

/-- `payload[pos:pos+n].uint` on a possibly short buffer: a slice truncates
silently, and `.uint` of the empty slice raises `InterpretError`. -/
def readUintT (p : List Bool) (pos n : ℕ) : Except PyErr ℕ :=
  if pySlice p pos (pos + n) = [] then .error .interpretError
  else .ok (bitsToNat (pySlice p pos (pos + n)))

/-- `payload[pos:pos+n].int` on a possibly short buffer. -/
def readIntT (p : List Bool) (pos n : ℕ) : Except PyErr ℤ :=
  if pySlice p pos (pos + n) = [] then .error .interpretError
  else .ok (bitsToInt (pySlice p pos (pos + n)))

/-- `stream.read(n)` on a `ConstBitStream` raises `ReadError` when fewer
than `n` bits remain (used by `libeph.py`). -/
def readS (p : List Bool) (pos n : ℕ) : Except PyErr (List Bool) :=
  if p.length < pos + n then .error .readError else .ok (pySlice p pos (pos + n))

/-- A Python number that is dynamically either an `int` or a `float`. -/
inductive PyNum where
  | pyint (z : ℤ)
  | pyfloat (q : ℚ)
deriving DecidableEq

/-- The numeric value of a `PyNum` (what `==` and number formatting see:
Python `0 == 0.0` is true and both format identically). -/
def PyNum.val : PyNum → ℚ
  | .pyint z => (z : ℚ)
  | .pyfloat q => q

/-- libssr.py line 40: `INVALID = 0`, the invalid value indication for the
CSSR message show. -/
def INVALID : ℤ := 0

/-- libssr.py line 411 (`decode_cssr_st2`):
`d_radial = i_radial * 0.0016 if i_radial != -16384 else INVALID`,
`i_radial` being a 15-bit two's-complement field. -/
def st2_d_radial (i : ℤ) : PyNum :=
  if i ≠ -16384 then .pyfloat ((i : ℚ) * (16 / 10000)) else .pyint INVALID

/-- libssr.py line 412 (`decode_cssr_st2`):
`d_along = i_along * 0.0064 if i_along != -16384 else INVALID`,
`i_along` being a 13-bit two's-complement field. -/
def st2_d_along (i : ℤ) : PyNum :=
  if i ≠ -16384 then .pyfloat ((i : ℚ) * (64 / 10000)) else .pyint INVALID

/-- libssr.py line 413 (`decode_cssr_st2`):
`d_cross = i_cross * 0.0064 if i_cross != -16384 else INVALID`,
`i_cross` being a 13-bit two's-complement field. -/
def st2_d_cross (i : ℤ) : PyNum :=
  if i ≠ -16384 then .pyfloat ((i : ℚ) * (64 / 10000)) else .pyint INVALID

/-- libssr.py line 466 (`decode_cssr_st3`):
`c0 = ic0 * 0.0016 if ic0 != -16384 else INVALID` (15-bit field). -/
def st3_c0 (i : ℤ) : PyNum :=
  if i ≠ -16384 then .pyfloat ((i : ℚ) * (16 / 10000)) else .pyint INVALID

/-- libssr.py line 559 (`_decode_code_bias`):
`cb = icb * 0.02 if icb != -1024 else INVALID` (11-bit field). -/
def cb_cb (i : ℤ) : PyNum :=
  if i ≠ -1024 then .pyfloat ((i : ℚ) * (2 / 100)) else .pyint INVALID

/-- The 13-bit pattern `'1000000000000'` (HAS clock "not available"). -/
def hasCkfulPatNA : List Bool := true :: List.replicate 12 false

/-- The 13-bit pattern `'0111111111111'` (HAS clock "the satellite shall
not be used"). -/
def hasCkfulPatNoUse : List Bool := false :: List.replicate 12 true

/-- libssr.py lines 489-495 (`decode_has_ckful`): the 13-bit raw clock
slice is compared against two bit patterns, both mapping to `INVALID`;
otherwise `c0 = ic0.int * 0.0025 * multiplier[i]`. -/
def has_ckful_c0 (ic0 : List Bool) (mult : ℕ) : PyNum :=
  if ic0 = hasCkfulPatNA then .pyint INVALID
  else if ic0 = hasCkfulPatNoUse then .pyint INVALID
  else .pyfloat ((bitsToInt ic0 : ℚ) * (25 / 10000) * (mult : ℚ))

theorem bitsToNat_lt (l : List Bool) : bitsToNat l < 2 ^ l.length := by
  induction l with
  | nil => simp [bitsToNat]
  | cons b rest ih =>
    have h2 : (2 : ℕ) ^ (b :: rest).length = 2 * 2 ^ rest.length := by
      rw [List.length_cons, pow_succ, Nat.mul_comm]
    rw [h2]
    cases b <;> simp [bitsToNat] <;> omega

theorem bitsToNat_inj : ∀ {l₁ l₂ : List Bool}, l₁.length = l₂.length →
    bitsToNat l₁ = bitsToNat l₂ → l₁ = l₂
  | [], [], _, _ => rfl
  | [], _ :: _, hlen, _ => by simp at hlen
  | _ :: _, [], hlen, _ => by simp at hlen
  | b₁ :: r₁, b₂ :: r₂, hlen, hval => by
    have hl : r₁.length = r₂.length := by simpa using hlen
    have h₁ := bitsToNat_lt r₁
    have h₂ := bitsToNat_lt r₂
    rw [hl] at h₁
    have hb : b₁ = b₂ := by
      by_contra hne
      cases b₁ <;> cases b₂ <;> simp [bitsToNat, hl] at hval hne <;> omega
    subst hb
    have hrest : bitsToNat r₁ = bitsToNat r₂ := by
      cases b₁ <;> simp [bitsToNat, hl] at hval <;> omega
    rw [bitsToNat_inj hl hrest]

theorem twosComp_lower {n : ℕ} (u : ℕ) (hn : 0 < n) :
    -(2 ^ (n - 1) : ℤ) ≤ twosComp n u := by
  unfold twosComp
  have h2 : (2 : ℤ) ^ n = 2 ^ (n - 1) * 2 := by
    conv_lhs => rw [show n = (n - 1) + 1 by omega]
    rw [pow_succ]
  have hp : (0 : ℤ) ≤ 2 ^ (n - 1) := by positivity
  have hu : (0 : ℤ) ≤ (u : ℤ) := Int.natCast_nonneg u
  split <;> omega

theorem twosComp_inj {n u₁ u₂ : ℕ} (h₁ : u₁ < 2 ^ n) (h₂ : u₂ < 2 ^ n)
    (h : twosComp n u₁ = twosComp n u₂) : u₁ = u₂ := by
  have h₁z : (u₁ : ℤ) < 2 ^ n := by exact_mod_cast h₁
  have h₂z : (u₂ : ℤ) < 2 ^ n := by exact_mod_cast h₂
  have hu₁ : (0 : ℤ) ≤ (u₁ : ℤ) := Int.natCast_nonneg u₁
  have hu₂ : (0 : ℤ) ≤ (u₂ : ℤ) := Int.natCast_nonneg u₂
  unfold twosComp at h
  split at h <;> split at h <;> omega

theorem bitsToInt_lower (l : List Bool) (hn : 0 < l.length) :
    -(2 ^ (l.length - 1) : ℤ) ≤ bitsToInt l :=
  twosComp_lower (bitsToNat l) hn

theorem bitsToInt_inj {l₁ l₂ : List Bool} (hlen : l₁.length = l₂.length)
    (h : bitsToInt l₁ = bitsToInt l₂) : l₁ = l₂ := by
  unfold bitsToInt at h
  rw [hlen] at h
  have hb₁ : bitsToNat l₁ < 2 ^ l₂.length := by
    rw [← hlen]; exact bitsToNat_lt l₁
  exact bitsToNat_inj hlen (twosComp_inj hb₁ (bitsToNat_lt l₂) h)

/-- Claim C1, counterexample.  The claim states that the INVALID indication
is distinct from a legitimately decoded 0.  In the source, `INVALID = 0`
(libssr.py line 40), so the value decoded from the ST2 radial sentinel
`-16384` is numerically equal to the value decoded from raw 0: both are 0
and both format identically in the trace. -/
theorem C1_counterexample :
    INVALID = 0 ∧ (st2_d_radial (-16384)).val = (st2_d_radial 0).val := by
  refine ⟨rfl, ?_⟩
  norm_num [st2_d_radial, PyNum.val, INVALID]

/-- Claim C1, amended.  Every scaled CSSR field maps its sentinel raw value
to the constant `INVALID`, but `INVALID` is the integer 0: the numeric
value of the INVALID indication is 0, equal to that of a legitimately
decoded raw 0 (the scaled value is 0 exactly for raw 0 and the sentinel).
The indication is not distinct from zero as a numeric value, only as a
Python `int` versus `float` object. -/
theorem C1_thm (i : ℤ) :
    (i = -16384 → st2_d_radial i = PyNum.pyint INVALID) ∧
    ((st2_d_radial i).val = 0 ↔ i = 0 ∨ i = -16384) ∧
    (i = -16384 → st3_c0 i = PyNum.pyint INVALID ∧ (st3_c0 i).val = 0) ∧
    (i = -1024 → cb_cb i = PyNum.pyint INVALID ∧ (cb_cb i).val = 0) := by
  refine ⟨fun h => by subst h; decide, ?_,
    fun h => by
      subst h
      exact ⟨by rw [st3_c0, if_neg (by decide)],
             by rw [st3_c0, if_neg (by decide)]; norm_num [PyNum.val, INVALID]⟩,
    fun h => by
      subst h
      exact ⟨by rw [cb_cb, if_neg (by decide)],
             by rw [cb_cb, if_neg (by decide)]; norm_num [PyNum.val, INVALID]⟩⟩
  by_cases h : i = -16384
  · subst h
    refine iff_of_true ?_ (Or.inr rfl)
    rw [st2_d_radial, if_neg (by decide)]
    norm_num [PyNum.val, INVALID]
  · simp only [st2_d_radial, Ne, if_pos h, PyNum.val]
    rw [mul_eq_zero]
    constructor
    · rintro (h0 | h0)
      · exact Or.inl (by exact_mod_cast h0)
      · norm_num at h0
    · rintro (rfl | rfl)
      · simp
      · exact absurd rfl h

/-- Claim C1, witness for `C1_thm` at the ST2 radial sentinel. -/
theorem C1_thm_witness :
    st2_d_radial (-16384) = PyNum.pyint INVALID ∧
    (st2_d_radial (-16384)).val = 0 :=
  ⟨(C1_thm (-16384)).1 rfl, ((C1_thm (-16384)).2.1).mpr (Or.inr rfl)⟩

/-- Claim C2, counterexample.  In `decode_has_ckful` the 13-bit pattern
`'0111111111111'` (value 4095, the most-positive 13-bit value, not the
most-negative) also maps to INVALID; and the 13-bit ST2 along-track field
is compared against `-16384`, unreachable for a 13-bit value, so even the
most-negative 13-bit raw `-4096` does not map to INVALID. -/
theorem C2_counterexample :
    has_ckful_c0 hasCkfulPatNoUse 1 = PyNum.pyint INVALID ∧
    bitsToInt hasCkfulPatNoUse = 4095 ∧
    st2_d_along (-4096) = PyNum.pyfloat ((-4096 : ℚ) * (64 / 10000)) ∧
    st2_d_along (-4096) ≠ PyNum.pyint INVALID := by
  refine ⟨by decide, by decide, ?_, ?_⟩
  · rw [st2_d_along, if_pos (by decide)]; norm_num
  · rw [st2_d_along, if_pos (by decide)]; simp

/-- Claim C2, amended.  For the ST2 radial field the sentinel `-16384` is
the most-negative 15-bit value and exactly that raw value maps to INVALID.
The 13-bit ST2 along/cross fields compare against `-16384`, which no
13-bit value attains, so no raw input of theirs maps to INVALID.  The
HAS full clock 13-bit field maps exactly two raw values to INVALID: the
most-negative `-4096` ("not available") and the most-positive `4095`
("the satellite shall not be used"). -/
theorem C2_thm :
    (∀ i : ℤ, st2_d_radial i = PyNum.pyint INVALID ↔ i = -16384) ∧
    (∀ l : List Bool, l.length = 15 → -16384 ≤ bitsToInt l) ∧
    (∀ l : List Bool, l.length = 13 →
      st2_d_along (bitsToInt l) ≠ PyNum.pyint INVALID ∧
      st2_d_cross (bitsToInt l) ≠ PyNum.pyint INVALID) ∧
    (∀ (l : List Bool) (m : ℕ), l.length = 13 →
      (has_ckful_c0 l m = PyNum.pyint INVALID ↔
        bitsToInt l = -4096 ∨ bitsToInt l = 4095)) := by
  refine ⟨?_, ?_, ?_, ?_⟩
  · intro i
    by_cases h : i = -16384
    · subst h; exact iff_of_true (by decide) rfl
    · refine iff_of_false ?_ h
      simp [st2_d_radial, h]
  · intro l hl
    have hlow := bitsToInt_lower l (by rw [hl]; norm_num)
    rw [hl] at hlow
    norm_num at hlow
    exact hlow
  · intro l hl
    have hlow := bitsToInt_lower l (by rw [hl]; norm_num)
    rw [hl] at hlow
    have hne : bitsToInt l ≠ -16384 := by norm_num at hlow; omega
    exact ⟨by simp [st2_d_along, hne], by simp [st2_d_cross, hne]⟩
  · intro l m hl
    have hNA : l = hasCkfulPatNA ↔ bitsToInt l = -4096 := by
      constructor
      · rintro rfl; decide
      · intro hv
        refine @bitsToInt_inj l hasCkfulPatNA (by rw [hl]; decide) ?_
        rw [hv]; decide
    have hNoUse : l = hasCkfulPatNoUse ↔ bitsToInt l = 4095 := by
      constructor
      · rintro rfl; decide
      · intro hv
        refine @bitsToInt_inj l hasCkfulPatNoUse (by rw [hl]; decide) ?_
        rw [hv]; decide
    by_cases h1 : l = hasCkfulPatNA
    · subst h1
      exact iff_of_true (by rw [has_ckful_c0, if_pos rfl]) (Or.inl (by decide))
    · by_cases h2 : l = hasCkfulPatNoUse
      · subst h2
        exact iff_of_true
          (by rw [has_ckful_c0, if_neg (by decide), if_pos rfl])
          (Or.inr (by decide))
      · refine iff_of_false ?_ ?_
        · rw [has_ckful_c0, if_neg h1, if_neg h2]; simp
        · rintro (hv | hv)
          · exact h1 (hNA.mpr hv)
          · exact h2 (hNoUse.mpr hv)

/-- Claim C2, witness for `C2_thm` at concrete 15- and 13-bit inputs. -/
theorem C2_thm_witness :
    st2_d_radial (-16384) = PyNum.pyint INVALID ∧
    -16384 ≤ bitsToInt (List.replicate 15 false) ∧
    st2_d_along (bitsToInt (List.replicate 13 false)) ≠ PyNum.pyint INVALID ∧
    has_ckful_c0 hasCkfulPatNA 1 = PyNum.pyint INVALID :=
  ⟨(C2_thm.1 (-16384)).mpr rfl,
   C2_thm.2.1 (List.replicate 15 false) (by decide),
   (C2_thm.2.2.1 (List.replicate 13 false) (by decide)).1,
   (C2_thm.2.2.2 hasCkfulPatNA 1 (by decide)).mpr (Or.inl (by decide))⟩

/-- Lookup in a Python dict modelled as an association list in assignment
order; a later assignment to the same key wins.  Every lookup performed by
the embedded decoders is on a key that is present (they iterate
`self.satsys`, whose members are exactly the keys assigned by the mask
decoder), so the `[]` returned for a missing key is unreachable there. -/
def dictGet (d : List (Char × List String)) (c : Char) : List String :=
  match (d.filter (fun p => p.1 == c)).getLast? with
  | some p => p.2
  | none => []

/-- The mutable state of the `Ssr` class (libssr.py lines 53-78), with the
class-level defaults as initial values.  `mmi`/`ssr_mmi` hold the bit of
the one-bit slice the source stores.  The trace/display fields
(`fp_disp`, `t_level`, `msg_color`, `stat`) are presentation-only and are
not modelled. -/
structure SsrState where
  subtype    : ℕ := 0
  msgnum     : ℕ := 0
  ssr_nsat   : ℕ := 0
  ssr_mmi    : Bool := false
  ssr_iod    : ℕ := 0
  epoch      : ℕ := 0
  hepoch     : ℕ := 0
  interval   : ℕ := 0
  mmi        : Bool := false
  iod        : ℕ := 0
  satsys     : List Char := []
  nsatmask   : List ℕ := []
  nsigmask   : List ℕ := []
  cellmask   : List (List Bool) := []
  gsys       : List (Char × List String) := []
  gsig       : List (Char × List String) := []
  stat_nsat  : ℕ := 0
  stat_nsig  : ℕ := 0
  stat_bsat  : ℤ := 0
  stat_bsig  : ℤ := 0
  stat_both  : ℤ := 0
  stat_bnull : ℕ := 0
deriving DecidableEq

/-- libssr.py lines 297-302: the common tail of `decode_cssr_head` reading
update interval (4 bits), multiple-message indicator (1 bit) and SSR issue
of data (4 bits), guarded by one length check. -/
def decode_cssr_head_tail (s : SsrState) (payload : List Bool) (pos : ℕ) :
    ℕ × SsrState :=
  if payload.length < pos + 4 + 1 + 4 then (0, s)
  else
    (pos + 9,
     { s with interval := bitsToNat (pySlice payload pos (pos + 4)),
              mmi := (pySlice payload (pos + 4) (pos + 5)).headI,
              iod := bitsToNat (pySlice payload (pos + 5) (pos + 9)) })

/-- libssr.py lines 261-302, `decode_cssr_head`.  `'0b1' not in payload`
is the zero-padding test (no set bit anywhere); a message-number mismatch
against 4073 is treated as null data and counted in `stat_bnull`; every
read is guarded by a length check, so the function never raises. -/
def decode_cssr_head (s : SsrState) (payload : List Bool) : ℕ × SsrState :=
  if payload.contains true = false then
    (0, { s with stat_bnull := s.stat_bnull + payload.length, subtype := 0 })
  else if payload.length < 12 then
    (0, { s with msgnum := 0, subtype := 0 })
  else if bitsToNat (pySlice payload 0 12) ≠ 4073 then
    (0, { s with msgnum := bitsToNat (pySlice payload 0 12),
                 stat_bnull := s.stat_bnull + payload.length, subtype := 0 })
  else if payload.length < 12 + 4 then
    (0, { s with msgnum := bitsToNat (pySlice payload 0 12), subtype := 0 })
  else if bitsToNat (pySlice payload 12 16) = 1 then
    if payload.length < 16 + 20 then
      (0, { s with msgnum := bitsToNat (pySlice payload 0 12),
                   subtype := bitsToNat (pySlice payload 12 16) })
    else
      decode_cssr_head_tail
        { s with msgnum := bitsToNat (pySlice payload 0 12),
                 subtype := bitsToNat (pySlice payload 12 16),
                 epoch := bitsToNat (pySlice payload 16 36) } payload 36
  else if bitsToNat (pySlice payload 12 16) = 10 then
    (16, { s with msgnum := bitsToNat (pySlice payload 0 12),
                  subtype := bitsToNat (pySlice payload 12 16) })
  else if payload.length < 16 + 12 then
    (0, { s with msgnum := bitsToNat (pySlice payload 0 12),
                 subtype := bitsToNat (pySlice payload 12 16) })
  else
    decode_cssr_head_tail
      { s with msgnum := bitsToNat (pySlice payload 0 12),
               subtype := bitsToNat (pySlice payload 12 16),
               hepoch := bitsToNat (pySlice payload 16 28) } payload 28

/-- Claim C10: an all-zero payload of any length (no set bit) is
classified as null padding, never an error: the payload bit length is
added to the null statistics counter, the subtype is set to 0, position 0
is returned, no header field is read, and nothing is raised (the embedded
function is total). -/
theorem C10_thm (s : SsrState) (payload : List Bool)
    (h : payload.contains true = false) :
    decode_cssr_head s payload =
      (0, { s with stat_bnull := s.stat_bnull + payload.length,
                   subtype := 0 }) := by
  unfold decode_cssr_head
  rw [if_pos h]

/-- Claim C10, witness for `C10_thm` on an 8-bit all-zero payload. -/
theorem C10_thm_witness :
    decode_cssr_head {} (List.replicate 8 false) =
      (0, { ({} : SsrState) with
              stat_bnull :=
                ({} : SsrState).stat_bnull + (List.replicate 8 false).length,
              subtype := 0 }) :=
  C10_thm {} (List.replicate 8 false) (by decide)

/-- Claim C8: a payload of at least 12 bits with some set bit whose first
12 bits differ from 4073 is treated as null data: the payload bit length
is added to the null statistics counter, the subtype is set to 0, position
0 is returned, and nothing is raised (the embedded function is total). -/
theorem C8_thm (s : SsrState) (payload : List Bool)
    (h1 : payload.contains true = true)
    (h2 : 12 ≤ payload.length)
    (h3 : bitsToNat (pySlice payload 0 12) ≠ 4073) :
    decode_cssr_head s payload =
      (0, { s with msgnum := bitsToNat (pySlice payload 0 12),
                   stat_bnull := s.stat_bnull + payload.length,
                   subtype := 0 }) := by
  unfold decode_cssr_head
  rw [if_neg (by rw [h1]; exact fun h => by cases h),
    if_neg (by omega), if_pos h3]

/-- Claim C8, witness for `C8_thm` on a 12-bit payload whose message
number is 2048. -/
theorem C8_thm_witness :
    decode_cssr_head {} (true :: List.replicate 11 false) =
      (0, { ({} : SsrState) with
              msgnum := bitsToNat (pySlice (true :: List.replicate 11 false) 0 12),
              stat_bnull :=
                ({} : SsrState).stat_bnull +
                  (true :: List.replicate 11 false).length,
              subtype := 0 }) :=
  C8_thm {} (true :: List.replicate 11 false) (by decide) (by decide) (by decide)

/-- One decoded record of CSSR ST2 (libssr.py lines 407-418): the content
of one trace line for one satellite. -/
structure St2Rec where
  gsys : String
  iode : ℕ
  d_radial : PyNum
  d_along : PyNum
  d_cross : PyNum
deriving DecidableEq

/-- libssr.py lines 404-418: the satellite loop of `decode_cssr_st2`;
`bw` is the IODE bit width of the current system.  `none` is the
`return 0` taken when the payload is shorter than the next satellite's
`bw + 15 + 13 + 13` bits. -/
def st2_sats (payload : List Bool) (bw : ℕ) :
    List String → ℕ → Option (ℕ × List St2Rec)
  | [], pos => some (pos, [])
  | g :: rest, pos =>
    if payload.length < pos + bw + 15 + 13 + 13 then none
    else
      match st2_sats payload bw rest (pos + bw + 41) with
      | none => none
      | some (p, rs) =>
        some (p,
          ⟨g, bitsToNat (pySlice payload pos (pos + bw)),
           st2_d_radial (bitsToInt (pySlice payload (pos + bw) (pos + bw + 15))),
           st2_d_along (bitsToInt (pySlice payload (pos + bw + 15) (pos + bw + 28))),
           st2_d_cross (bitsToInt (pySlice payload (pos + bw + 28) (pos + bw + 41)))⟩
          :: rs)

/-- libssr.py lines 402-403: the system loop of `decode_cssr_st2`
(`bw = 10 if satsys == 'E' else 8`, satellites from `self.gsys`). -/
def st2_syss (s : SsrState) (payload : List Bool) :
    List Char → ℕ → Option (ℕ × List St2Rec)
  | [], pos => some (pos, [])
  | c :: rest, pos =>
    match st2_sats payload (if c = 'E' then 10 else 8) (dictGet s.gsys c) pos with
    | none => none
    | some (p, rs) =>
      match st2_syss s payload rest p with
      | none => none
      | some (p2, rs2) => some (p2, rs ++ rs2)

/-- libssr.py lines 398-422, `decode_cssr_st2` (ST2 orbit corrections):
returns the new position, the new state and the decoded records standing
in for the trace; on the insufficient-data path it returns 0 with the
state unchanged (the statistics are only updated after a full decode). -/
def decode_cssr_st2 (s : SsrState) (payload : List Bool) (pos : ℕ) :
    ℕ × SsrState × List St2Rec :=
  match st2_syss s payload s.satsys pos with
  | none => (0, s, [])
  | some (p, rs) =>
    (p, { s with stat_both := s.stat_both + (pos : ℤ),
                 stat_bsat := s.stat_bsat + ((p : ℤ) - (pos : ℤ)) }, rs)

/-- One decoded record of CSSR ST3 (libssr.py lines 465-467). -/
structure St3Rec where
  gsys : String
  c0 : PyNum
deriving DecidableEq

/-- libssr.py lines 462-467: the satellite loop of `decode_cssr_st3`,
one 15-bit clock field per satellite, guarded by a length check. -/
def st3_sats (payload : List Bool) :
    List String → ℕ → Option (ℕ × List St3Rec)
  | [], pos => some (pos, [])
  | g :: rest, pos =>
    if payload.length < pos + 15 then none
    else
      match st3_sats payload rest (pos + 15) with
      | none => none
      | some (p, rs) =>
        some (p, ⟨g, st3_c0 (bitsToInt (pySlice payload pos (pos + 15)))⟩ :: rs)

/-- libssr.py line 461: the system loop of `decode_cssr_st3`. -/
def st3_syss (s : SsrState) (payload : List Bool) :
    List Char → ℕ → Option (ℕ × List St3Rec)
  | [], pos => some (pos, [])
  | c :: rest, pos =>
    match st3_sats payload (dictGet s.gsys c) pos with
    | none => none
    | some (p, rs) =>
      match st3_syss s payload rest p with
      | none => none
      | some (p2, rs2) => some (p2, rs ++ rs2)

/-- libssr.py lines 457-471, `decode_cssr_st3` (ST3 clock corrections). -/
def decode_cssr_st3 (s : SsrState) (payload : List Bool) (pos : ℕ) :
    ℕ × SsrState × List St3Rec :=
  match st3_syss s payload s.satsys pos with
  | none => (0, s, [])
  | some (p, rs) =>
    (p, { s with stat_both := s.stat_both + (pos : ℤ),
                 stat_bsat := s.stat_bsat + ((p : ℤ) - (pos : ℤ)) }, rs)

/-- One decoded record of RTCM SSR orbit correction (libssr.py 118-133). -/
structure SsrOrbitRec where
  satid : ℕ
  iode : ℕ
  drad : ℚ
  daln : ℚ
  dcrs : ℚ
  ddrad : ℚ
  ddaln : ℚ
  ddcrs : ℚ
deriving DecidableEq

/-- libssr.py lines 117-131: the satellite loop of `ssr_decode_orbit`.
No read is guarded: a slice past the end is silently truncated, and
`.uint`/`.int` of an empty slice raises `InterpretError`. -/
def ssr_orbit_loop (payload : List Bool) (bw : ℕ) :
    ℕ → ℕ → Except PyErr (ℕ × List SsrOrbitRec)
  | 0, pos => .ok (pos, [])
  | n + 1, pos => do
    let satid ← readUintT payload pos bw
    let iode ← readUintT payload (pos + bw) 8
    let idrad ← readIntT payload (pos + bw + 8) 22
    let idaln ← readIntT payload (pos + bw + 30) 20
    let idcrs ← readIntT payload (pos + bw + 50) 20
    let iddrad ← readIntT payload (pos + bw + 70) 21
    let iddaln ← readIntT payload (pos + bw + 91) 19
    let iddcrs ← readIntT payload (pos + bw + 110) 19
    let (p, rs) ← ssr_orbit_loop payload bw n (pos + bw + 129)
    .ok (p, ⟨satid, iode, (idrad : ℚ) * (1 / 10000), (idaln : ℚ) * (4 / 10000),
             (idcrs : ℚ) * (4 / 100000), (iddrad : ℚ) * (1 / 1000000),
             (iddaln : ℚ) * (4 / 1000000), (iddcrs : ℚ) * (4 / 1000000)⟩ :: rs)

/-- libssr.py lines 110-136, `ssr_decode_orbit`: satellite-id bit width by
system, then `self.ssr_nsat` unguarded satellite reads. -/
def ssr_decode_orbit (s : SsrState) (payload : List Bool) (pos : ℕ)
    (satsys : Char) : Except PyErr (ℕ × List SsrOrbitRec) :=
  ssr_orbit_loop payload
    (if satsys = 'J' then 4 else if satsys = 'R' then 5 else 6)
    s.ssr_nsat pos

/-- A minimal post-mask session state: one GPS satellite `G01`, one signal
`L1 C/A`, one active cell — the shape `_decode_mask` stores for a mask
message declaring exactly that. -/
def ctx1 : SsrState :=
  { satsys := ['G'], nsatmask := [1], nsigmask := [1], cellmask := [[true]],
    gsys := [('G', ["G01"])], gsig := [('G', ["L1 C/A"])] }

theorem ssr_orbit_loop_nil (bw n pos : ℕ) :
    ssr_orbit_loop [] bw (n + 1) pos = .error PyErr.interpretError := by
  have h : readUintT [] pos bw = .error PyErr.interpretError := by
    simp [readUintT, pySlice]
  simp only [ssr_orbit_loop]
  rw [h]
  rfl

/-- Claim C4, counterexample.  With the initial session state (the class
defaults: no mask decoded, `satsys` empty), `decode_cssr_st2` neither
reports a protocol-sequencing error nor drops the message: it returns the
input position 37 as a successful decode with an empty record list. -/
theorem C4_counterexample :
    (decode_cssr_st2 {} (List.replicate 64 false) 37).1 = 37 ∧
    (decode_cssr_st2 {} (List.replicate 64 false) 37).2.2 = [] ∧
    (37 : ℕ) ≠ 0 :=
  ⟨rfl, rfl, by decide⟩

/-- Claim C4, amended.  On decoding a non-mask CSSR subtype while no mask
message has established a context (initial state: `satsys` is the empty
class default), the decoder reports nothing: the satellite loops iterate
over the empty system list, so the message body is skipped and the decode
returns the header position unchanged with no records, indistinguishable
from a successful decode of an empty constellation (shown for the ST2
orbit and ST3 clock decoders). -/
theorem C4_thm (payload : List Bool) (pos : ℕ) :
    (decode_cssr_st2 {} payload pos).1 = pos ∧
    (decode_cssr_st2 {} payload pos).2.2 = [] ∧
    (decode_cssr_st3 {} payload pos).1 = pos ∧
    (decode_cssr_st3 {} payload pos).2.2 = [] :=
  ⟨rfl, rfl, rfl, rfl⟩

/-- Claim C3, counterexample.  `ssr_decode_orbit` (plain RTCM SSR) has no
length checks: with one satellite announced in the header and an exhausted
payload it raises `InterpretError` (`.uint` of an empty slice) instead of
returning the insufficient-data result 0. -/
theorem C3_counterexample :
    ssr_decode_orbit { ssr_nsat := 1 } [] 0 'G' =
      .error PyErr.interpretError :=
  ssr_orbit_loop_nil 6 0 0

/-- Claim C3, amended.  The CSSR decode routines check the remaining
length before each read and return the distinct insufficient-data result
(position 0) without raising — shown for `decode_cssr_st3`: whenever the
payload is too short for the first 15-bit clock field of a non-empty mask
context the decode returns 0 with the state unchanged.  The plain RTCM
SSR routines perform no such check: `ssr_decode_orbit` on an exhausted
payload raises `InterpretError` rather than returning 0, so the claim
fails for the SSR family. -/
theorem C3_thm :
    (∀ (st : SsrState) (payload : List Bool) (pos : ℕ) (c : Char)
       (rest : List Char),
       st.satsys = c :: rest → dictGet st.gsys c ≠ [] →
       payload.length < pos + 15 →
       decode_cssr_st3 st payload pos = (0, st, [])) ∧
    (∀ (st : SsrState) (pos : ℕ) (c : Char), 1 ≤ st.ssr_nsat →
       ssr_decode_orbit st [] pos c = .error PyErr.interpretError) := by
  constructor
  · intro st payload pos c rest hsys hg hlen
    obtain ⟨g, gs, hgs⟩ := List.exists_cons_of_ne_nil hg
    unfold decode_cssr_st3
    rw [hsys]
    simp only [st3_syss, hgs, st3_sats, if_pos hlen]
  · intro st pos c h
    obtain ⟨n, hn⟩ : ∃ n, st.ssr_nsat = n + 1 := ⟨st.ssr_nsat - 1, by omega⟩
    unfold ssr_decode_orbit
    rw [hn]
    exact ssr_orbit_loop_nil _ n pos

/-- Claim C3, witness for `C3_thm` at concrete inputs. -/
theorem C3_thm_witness :
    decode_cssr_st3 ctx1 [] 0 = (0, ctx1, []) ∧
    ssr_decode_orbit { ssr_nsat := 2 } [] 3 'R' =
      .error PyErr.interpretError :=
  ⟨C3_thm.1 ctx1 [] 0 'G' [] rfl (by decide) (by decide),
   C3_thm.2 { ssr_nsat := 2 } 3 'R' (by decide)⟩

/-- f-string `'{n:02d}'` zero-padded two-digit formatting. -/
def fmt02 (n : ℕ) : String := if n < 10 then "0" ++ Nat.repr n else Nat.repr n

/-- libssr.py line 334: satellite name `t_satsys + f'{i + 1:02d}'` for the
set bit at 0-based bitmask index `i`. -/
def satName (c : Char) (i : ℕ) : String := Char.toString c ++ fmt02 (i + 1)

/-- libssr.py lines 1001-1009, `gnssid2satsys`: an undefined id raises. -/
def gnssid2satsys (gnssid : ℕ) : Except PyErr Char :=
  if gnssid = 0 then .ok 'G'
  else if gnssid = 1 then .ok 'R'
  else if gnssid = 2 then .ok 'E'
  else if gnssid = 3 then .ok 'C'
  else if gnssid = 4 then .ok 'J'
  else if gnssid = 5 then .ok 'S'
  else .error .exception

/-- Python list indexing: `IndexError` when out of range. -/
def listIdx (l : List String) (i : ℕ) : Except PyErr String :=
  match l.get? i with
  | some x => .ok x
  | none => .error .indexError

/-- libssr.py lines 1014-1016: GPS signal-name table. -/
def signamesG : List String :=
  ["L1 C/A", "L1 P", "L1 Z-tracking", "L1C(D)", "L1C(P)", "L1C(D+P)",
   "L2 CM", "L2 CL", "L2 CM+CL", "L2 P", "L2 Z-tracking", "L5 I", "L5 Q",
   "L5 I+Q", "", ""]

/-- libssr.py lines 1018-1020: GLONASS signal-name table. -/
def signamesR : List String :=
  ["G1 C/A", "G1 P", "G2 C/A", "G2 P", "G1a(D)", "G1a(P)", "G1a(D+P)",
   "G2a(D)", "G2a(P)", "G2a(D+P)", "G3 I", "G3 Q", "G3 I+Q", "", "", "", ""]

/-- libssr.py lines 1022-1024: Galileo signal-name table. -/
def signamesE : List String :=
  ["E1 B", "E1 C", "E1 B+C", "E5a I", "E5a Q", "E5a I+Q", "E5b I", "E5b Q",
   "E5b I+Q", "E5 I", "E5 Q", "E5 I+Q", "E6 B", "E6 C", "E6 B+C", ""]

/-- libssr.py lines 1026-1027: BeiDou signal-name table. -/
def signamesC : List String :=
  ["B1 I", "B1 Q", "B1 I+Q", "B3 I", "B3 Q", "B3 I+Q", "B2 I", "B2 Q",
   "B2 I+Q", "", "", "", "", "", "", "", ""]

/-- libssr.py lines 1029-1031: QZSS signal-name table. -/
def signamesJ : List String :=
  ["L1 C/A", "L1 L1C(D)", "L1 L1C(P)", "L1 L1C(D+P)", "L2 L2C(M)",
   "L2 L2C(L)", "L2 L2C(M+L)", "L5 I", "L5 Q", "L5 I+Q", "", "", "", "",
   "", ""]

/-- libssr.py lines 1033-1035: SBAS signal-name table. -/
def signamesS : List String :=
  ["L1 C/A", "L5 I", "L5 Q", "L5 I+Q", "", "", "", "", "", "", "", "", "",
   "", "", "", ""]

/-- libssr.py lines 1011-1039, `sigmask2signame`: a known system indexes
its name table (`IndexError` past its end), an unknown system raises. -/
def sigmask2signame (satsys : Char) (sigmask : ℕ) : Except PyErr String :=
  if satsys = 'G' then listIdx signamesG sigmask
  else if satsys = 'R' then listIdx signamesR sigmask
  else if satsys = 'E' then listIdx signamesE sigmask
  else if satsys = 'C' then listIdx signamesC sigmask
  else if satsys = 'J' then listIdx signamesJ sigmask
  else if satsys = 'S' then listIdx signamesS sigmask
  else .error .exception

/-- libssr.py lines 331-334: the `enumerate(bsatmask)` loop collecting
`t_satsys + f'{i+1:02d}'` for each set bit, in ascending bit order. -/
def maskedSatNames (c : Char) (bm : List Bool) : List String :=
  bm.enum.filterMap (fun p => if p.2 then some (satName c p.1) else none)

/-- libssr.py lines 335-338: the `enumerate(bsigmask)` loop collecting
`sigmask2signame(t_satsys, i)` for each set bit, in ascending bit order
(an exception from the name lookup propagates). -/
def maskedSigNames (c : Char) : List Bool → ℕ → Except PyErr (List String)
  | [], _ => .ok []
  | v :: rest, i =>
    if v then do
      let n ← sigmask2signame c i
      let ns ← maskedSigNames c rest (i + 1)
      return (n :: ns)
    else maskedSigNames c rest (i + 1)

/-- Number of set bits (the `t_satmask`/`t_sigmask` counters). -/
def countOnes (bm : List Bool) : ℕ := (bm.filter (fun b => b)).length

/-- The `ssr_type` argument of `_decode_mask`/`_decode_code_bias`; the
source `raise` for any other string is unrepresentable in this two-valued
type. -/
inductive SsrType where
  | cssr
  | has
deriving DecidableEq

/-- What one iteration of the per-GNSS loop of `_decode_mask` (libssr.py
lines 321-354) computes for one system. -/
structure MaskEntry where
  satsys : Char
  nsat : ℕ
  nsig : ℕ
  gsysL : List String
  gsigL : List String
  cell : List Bool
  nm : ℕ
deriving DecidableEq

/-- libssr.py lines 321-354: one iteration of the per-GNSS mask loop.
`if cmavail:` tests a one-bit slice whose `bitstring` truthiness is
non-emptiness, so the all-ones cell-mask synthesis happens only when the
payload ended before the flag bit; otherwise the cell mask is read from
the payload (truncating silently). -/
def decode_mask_gnss (payload : List Bool) (t : SsrType) (pos : ℕ) :
    Except PyErr (ℕ × MaskEntry) := do
  let ugnssid ← readUintT payload pos 4
  let bsatmask := pySlice payload (pos + 4) (pos + 44)
  let bsigmask := pySlice payload (pos + 44) (pos + 60)
  let cmavail := pySlice payload (pos + 60) (pos + 61)
  let t_satsys ← gnssid2satsys ugnssid
  let t_gsys := maskedSatNames t_satsys bsatmask
  let t_gsig ← maskedSigNames t_satsys bsigmask 0
  let ncell := countOnes bsatmask * countOnes bsigmask
  let bcellmask :=
    if cmavail ≠ [] then pySlice payload (pos + 61) (pos + 61 + ncell)
    else List.replicate ncell true
  let pos1 := if cmavail ≠ [] then pos + 61 + ncell else pos + 61
  if t = SsrType.has then
    let nm ← readUintT payload pos1 3
    return (pos1 + 3,
      ⟨t_satsys, countOnes bsatmask, countOnes bsigmask, t_gsys, t_gsig,
       bcellmask, nm⟩)
  else
    return (pos1,
      ⟨t_satsys, countOnes bsatmask, countOnes bsigmask, t_gsys, t_gsig,
       bcellmask, 0⟩)

/-- The `for ignss in range(ngnss)` loop of `_decode_mask`. -/
def decode_mask_loop (payload : List Bool) (t : SsrType) :
    ℕ → ℕ → Except PyErr (ℕ × List MaskEntry)
  | 0, pos => .ok (pos, [])
  | n + 1, pos => do
    let (pos1, e) ← decode_mask_gnss payload t pos
    let (pos2, es) ← decode_mask_loop payload t n pos1
    return (pos2, e :: es)

/-- Python sequence indexing on a bit list: `IndexError` when out of
range (integer indexing on a `Bits` returns a bool). -/
def pyIndex (l : List Bool) (i : ℕ) : Except PyErr Bool :=
  match l.get? i with
  | some b => .ok b
  | none => .error .indexError

/-- libssr.py lines 374-379: the signal loop of the mask trace pass —
consumes one cell-mask bit per signal (indexing can raise) and counts the
set ones. -/
def maskStatsRow (cell : List Bool) : List String → ℕ → Except PyErr (ℕ × ℕ)
  | [], pm => .ok (pm, 0)
  | _ :: rest, pm => do
    let mask ← pyIndex cell pm
    let (pm1, k) ← maskStatsRow cell rest (pm + 1)
    return (pm1, k + if mask then 1 else 0)

/-- libssr.py lines 368-380: the satellite loop of the mask trace pass;
returns final mask position, satellite count and active-cell count. -/
def maskStatsRows (cell : List Bool) (gsigL : List String) :
    List String → ℕ → Except PyErr (ℕ × ℕ × ℕ)
  | [], pm => .ok (pm, 0, 0)
  | _ :: rest, pm => do
    let (pm1, k) ← maskStatsRow cell gsigL pm
    let (pm2, ns, kk) ← maskStatsRows cell gsigL rest pm1
    return (pm2, ns + 1, kk + k)

/-- libssr.py lines 366-380: the per-system mask trace pass computing
`stat_nsat` and `stat_nsig`. -/
def maskStatsEntries : List MaskEntry → Except PyErr (ℕ × ℕ)
  | [] => .ok (0, 0)
  | e :: rest => do
    let (_, ns, k) ← maskStatsRows e.cell e.gsigL e.gsysL 0
    let (ns2, k2) ← maskStatsEntries rest
    return (ns + ns2, k + k2)

/-- libssr.py lines 304-390, `_decode_mask` (shared by CSSR ST1 and the
HAS mask): number-of-GNSS read with two length checks, the per-GNSS loop,
6 reserved bits for HAS, then the state assignment and the trace pass
recomputing the mask statistics.  Exceptions (undefined GNSS id, indexing
past a truncated cell mask) propagate out; in the source the table
assignment precedes the trace loop, so the state is partially updated
when the trace loop raises, but the exception then escapes `decode_cssr`
uncaught, which the embedding models by returning only the error. -/
def ssr_decode_mask (s : SsrState) (payload : List Bool) (pos : ℕ)
    (t : SsrType) : Except PyErr (ℕ × SsrState) :=
  if payload.length < pos + 4 then .ok (0, s)
  else if payload.length <
      49 + 61 * bitsToNat (pySlice payload pos (pos + 4)) then
    .ok (0, s)
  else do
    let (pos2, entries) ←
      decode_mask_loop payload t (bitsToNat (pySlice payload pos (pos + 4)))
        (pos + 4)
    let pos3 := if t = SsrType.has then pos2 + 6 else pos2
    let (nsat, nsig) ← maskStatsEntries entries
    return (pos3,
      { s with
          satsys := entries.map (fun e => e.satsys),
          nsatmask := entries.map (fun e => e.nsat),
          nsigmask := entries.map (fun e => e.nsig),
          cellmask := entries.map (fun e => e.cell),
          gsys := entries.map (fun e => (e.satsys, e.gsysL)),
          gsig := entries.map (fun e => (e.satsys, e.gsigL)),
          stat_nsat := nsat,
          stat_nsig := nsig,
          stat_bsat := 0,
          stat_bsig := 0,
          stat_both := (pos3 : ℤ),
          stat_bnull := 0 })

/-- libssr.py lines 392-393, `decode_cssr_st1`. -/
def decode_cssr_st1 (s : SsrState) (payload : List Bool) (pos : ℕ) :
    Except PyErr (ℕ × SsrState) :=
  ssr_decode_mask s payload pos SsrType.cssr

/-- libssr.py lines 395-396, `decode_has_mask`. -/
def decode_has_mask (s : SsrState) (payload : List Bool) (pos : ℕ) :
    Except PyErr (ℕ × SsrState) :=
  ssr_decode_mask s payload pos SsrType.has

/-- One decoded cell of `_decode_code_bias` (libssr.py lines 558-562). -/
structure CbRec where
  gsys : String
  gsig : String
  cb : PyNum
deriving DecidableEq

/-- libssr.py lines 554-562: the signal loop for one satellite row of
`_decode_code_bias`; consumes one cell-mask bit per signal and reads an
11-bit code bias for each active cell. -/
def cb_row (payload : List Bool) (cell : List Bool) (gname : String) :
    List String → ℕ → ℕ → Except PyErr (ℕ × ℕ × List CbRec)
  | [], pm, pos => .ok (pm, pos, [])
  | gsig :: rest, pm, pos => do
    let mask ← pyIndex cell pm
    if mask then
      let (pm1, pos1, rs) ← cb_row payload cell gname rest (pm + 1) (pos + 11)
      return (pm1, pos1,
        ⟨gname, gsig, cb_cb (bitsToInt (pySlice payload pos (pos + 11)))⟩ :: rs)
    else
      cb_row payload cell gname rest (pm + 1) pos

/-- libssr.py line 553: the satellite loop of `_decode_code_bias`; the
mask position runs on across rows within one system. -/
def cb_rows (payload : List Bool) (cell : List Bool) (gsigL : List String) :
    List String → ℕ → ℕ → Except PyErr (ℕ × List CbRec)
  | [], _, pos => .ok (pos, [])
  | g :: rest, pm, pos => do
    let (pm1, pos1, rs) ← cb_row payload cell g gsigL pm pos
    let (pos2, rs2) ← cb_rows payload cell gsigL rest pm1 pos1
    return (pos2, rs ++ rs2)

/-- libssr.py line 551: the system loop of `_decode_code_bias`, the mask
position restarting at 0 for each system. -/
def cb_syss (payload : List Bool) (gsysD gsigD : List (Char × List String)) :
    List (Char × List Bool) → ℕ → Except PyErr (ℕ × List CbRec)
  | [], pos => .ok (pos, [])
  | (c, cell) :: rest, pos => do
    let (pos1, rs) ← cb_rows payload cell (dictGet gsigD c) (dictGet gsysD c) 0 pos
    let (pos2, rs2) ← cb_syss payload gsysD gsigD rest pos1
    return (pos2, rs ++ rs2)

/-- libssr.py lines 533-541: the preparatory `nsigsat` count of
`_decode_code_bias` (the same double loop shape without payload reads). -/
def cb_nsigsat (gsysD gsigD : List (Char × List String)) :
    List (Char × List Bool) → Except PyErr ℕ
  | [] => .ok 0
  | (c, cell) :: rest => do
    let (_, _, k) ← maskStatsRows cell (dictGet gsigD c) (dictGet gsysD c) 0
    let k2 ← cb_nsigsat gsysD gsigD rest
    return (k + k2)

/-- libssr.py lines 528-566, `_decode_code_bias` (CSSR ST4 and HAS CBIAS):
active-cell count, HAS validity-interval prefix, one overall length check
(`11 * nsigsat` bits), then the mask-driven loops. -/
def ssr_decode_code_bias (s : SsrState) (payload : List Bool) (pos : ℕ)
    (t : SsrType) : Except PyErr (ℕ × SsrState × List CbRec) := do
  let nsigsat ← cb_nsigsat s.gsys s.gsig (s.satsys.zip s.cellmask)
  match (if t = SsrType.has then
           (if payload.length < pos + 4 then none else some (pos + 4))
         else some pos) with
  | none => return (0, s, [])
  | some pos1 =>
    if payload.length < pos1 + 11 * nsigsat then
      return (0, s, [])
    else do
      let (pos2, rs) ← cb_syss payload s.gsys s.gsig (s.satsys.zip s.cellmask) pos1
      return (pos2,
        { s with stat_both := s.stat_both + (pos1 : ℤ),
                 stat_bsig := s.stat_bsig + ((pos2 : ℤ) - (pos1 : ℤ)) }, rs)

/-- Big-endian `w`-bit encoding of `n` (payload construction helper). -/
def bitsOfNat (w n : ℕ) : List Bool :=
  (List.range w).map (fun i => n.testBit (w - 1 - i))

/-- A 110-bit CSSR ST1 mask message: message number 4073, subtype 1,
epoch 0, interval 0, mmi 0, iod 0; one GNSS: id 0 (GPS), satellite
bitmask bit 0 only, signal bitmask bit 0 only, cell-mask-availability
flag 0. -/
def maskMsgG0 : List Bool :=
  bitsOfNat 12 4073 ++ bitsOfNat 4 1 ++ List.replicate 20 false ++
  List.replicate 9 false ++ bitsOfNat 4 1 ++ bitsOfNat 4 0 ++
  (true :: List.replicate 39 false) ++ (true :: List.replicate 15 false) ++
  [false]

/-- The same mask message with cell-mask-availability flag 1 followed by
a one-bit all-ones cell mask (111 bits). -/
def maskMsgG1 : List Bool :=
  bitsOfNat 12 4073 ++ bitsOfNat 4 1 ++ List.replicate 20 false ++
  List.replicate 9 false ++ bitsOfNat 4 1 ++ bitsOfNat 4 0 ++
  (true :: List.replicate 39 false) ++ (true :: List.replicate 15 false) ++
  [true] ++ [true]

/-- The Galileo variant of `maskMsgG1` (GNSS id 2). -/
def maskMsgE1 : List Bool :=
  bitsOfNat 12 4073 ++ bitsOfNat 4 1 ++ List.replicate 20 false ++
  List.replicate 9 false ++ bitsOfNat 4 1 ++ bitsOfNat 4 2 ++
  (true :: List.replicate 39 false) ++ (true :: List.replicate 15 false) ++
  [true] ++ [true]

/-- The session state after decoding the header and ST1 mask of
`maskMsgG1`. -/
def ctxG : SsrState :=
  match ssr_decode_mask ((decode_cssr_head {} maskMsgG1).2) maskMsgG1 45
      SsrType.cssr with
  | .ok (_, st) => st
  | .error _ => {}

/-- The session state after decoding the header and ST1 mask of
`maskMsgE1`. -/
def ctxE : SsrState :=
  match ssr_decode_mask ((decode_cssr_head {} maskMsgE1).2) maskMsgE1 45
      SsrType.cssr with
  | .ok (_, st) => st
  | .error _ => {}

/-- 40-bit satellite bitmask with (1-indexed) bits {1,3,5} set, i.e.
0-based indices 0, 2 and 4. -/
def satmask135 : List Bool :=
  true :: false :: true :: false :: true :: List.replicate 35 false

/-- 16-bit signal bitmask with (0-indexed) bits {0,2} set. -/
def sigmask02 : List Bool :=
  true :: false :: true :: List.replicate 13 false

/-- A 67-bit single-GNSS mask-entry payload: GNSS id 0 (GPS),
`satmask135`, `sigmask02`, cell-mask-availability flag 0, followed by six
further zero bits of message body. -/
def entryPay0 : List Bool :=
  bitsOfNat 4 0 ++ satmask135 ++ sigmask02 ++ [false] ++
  List.replicate 6 false

/-- The same entry truncated to its first 60 bits: the payload ends just
before the cell-mask-availability flag. -/
def entryPay60 : List Bool :=
  bitsOfNat 4 0 ++ satmask135 ++ sigmask02

/-- The 3-satellite by 2-signal GPS session state with an all-ones cell
mask of length 6. -/
def ctx32 : SsrState :=
  { satsys := ['G'], nsatmask := [3], nsigmask := [2],
    cellmask := [List.replicate 6 true],
    gsys := [('G', ["G01", "G03", "G05"])],
    gsig := [('G', ["L1 C/A", "L1 Z-tracking"])] }

/-- Claim C5 (code bug).  The derivations hold as claimed for satellite
ids (bits {1,3,5} over 40 bits give `G01 G03 G05` ascending), signal
names (bits {0,2} over 16 bits give the two GPS names in ascending bit
order), the 3 x 2 = 6 cell count, and the satellite-major cell iteration
of the code-bias decoder.  The all-ones synthesis for a clear
cell-mask-availability flag, however, does not happen: `if cmavail:`
tests a one-bit `bitstring` slice, which is truthy because it is
non-empty even when the flag bit is 0, so the decoder reads the cell mask
from the payload (here six zero bits giving an all-zero mask and a
position advanced by 6); the synthesised all-ones mask arises only when
the payload ends before the flag bit (the 60-bit truncated entry). -/
theorem C5_thm :
    maskedSatNames 'G' satmask135 = ["G01", "G03", "G05"] ∧
    maskedSigNames 'G' sigmask02 0 = .ok ["L1 C/A", "L1 Z-tracking"] ∧
    countOnes satmask135 * countOnes sigmask02 = 6 ∧
    decode_mask_gnss entryPay0 SsrType.cssr 0 =
      .ok (67, ⟨'G', 3, 2, ["G01", "G03", "G05"],
                ["L1 C/A", "L1 Z-tracking"], List.replicate 6 false, 0⟩) ∧
    decode_mask_gnss entryPay60 SsrType.cssr 0 =
      .ok (61, ⟨'G', 3, 2, ["G01", "G03", "G05"],
                ["L1 C/A", "L1 Z-tracking"], List.replicate 6 true, 0⟩) ∧
    ssr_decode_code_bias ctx32 (List.replicate 66 false) 0 SsrType.cssr =
      .ok (66, { ctx32 with stat_both := 0, stat_bsig := 66 },
           [⟨"G01", "L1 C/A", cb_cb 0⟩, ⟨"G01", "L1 Z-tracking", cb_cb 0⟩,
            ⟨"G03", "L1 C/A", cb_cb 0⟩, ⟨"G03", "L1 Z-tracking", cb_cb 0⟩,
            ⟨"G05", "L1 C/A", cb_cb 0⟩, ⟨"G05", "L1 Z-tracking", cb_cb 0⟩]) :=
  ⟨rfl, rfl, rfl, rfl, rfl, rfl⟩

/-- Claim C6 (code bug).  The claimed mask message (cell-mask-availability
flag 0) does not yield a usable context: the flag's one-bit slice is
truthy as a non-empty `bitstring` slice, an empty cell mask is read past
the end of the 110-bit payload, and the mask trace loop then raises
`IndexError` indexing it.  With the flag set and an explicit one-bit
all-ones cell mask (the 111-bit variant) the context is exactly the
claimed one satellite, one signal, one active cell, and a following ST2
decode then consumes exactly 8 + 15 + 13 + 13 = 49 bits past the header
and no more (49 on a 50-bit payload, one record; insufficient data on 48
bits), the IODE width being 10 only for Galileo (51 bits for the `E`
context). -/
theorem C6_thm :
    (decode_cssr_head {} maskMsgG0).1 = 45 ∧
    ssr_decode_mask ((decode_cssr_head {} maskMsgG0).2) maskMsgG0 45
        SsrType.cssr = .error PyErr.indexError ∧
    (decode_cssr_head {} maskMsgG1).1 = 45 ∧
    ssr_decode_mask ((decode_cssr_head {} maskMsgG1).2) maskMsgG1 45
        SsrType.cssr = .ok (111, ctxG) ∧
    ctxG.satsys = ['G'] ∧
    dictGet ctxG.gsys 'G' = ["G01"] ∧
    dictGet ctxG.gsig 'G' = ["L1 C/A"] ∧
    ctxG.cellmask = [[true]] ∧
    (decode_cssr_st2 ctxG (List.replicate 50 false) 0).1 = 49 ∧
    (decode_cssr_st2 ctxG (List.replicate 50 false) 0).2.2.length = 1 ∧
    (decode_cssr_st2 ctxG (List.replicate 48 false) 0).1 = 0 ∧
    ctxE.satsys = ['E'] ∧
    dictGet ctxE.gsys 'E' = ["E01"] ∧
    (decode_cssr_st2 ctxE (List.replicate 52 false) 0).1 = 51 ∧
    (decode_cssr_st2 ctxE (List.replicate 50 false) 0).1 = 0 :=
  ⟨rfl, rfl, rfl, rfl, rfl, rfl, rfl, rfl, rfl, rfl, rfl, rfl, rfl, rfl, rfl⟩

theorem pySlice_eq_nil_iff (p : List Bool) (a b : ℕ) :
    pySlice p a b = [] ↔ p.length ≤ a ∨ b ≤ a := by
  unfold pySlice
  rw [List.take_eq_nil_iff, List.drop_eq_nil_iff]
  omega

theorem readUintT_empty {p : List Bool} {pos n : ℕ}
    (h : pySlice p pos (pos + n) = []) :
    readUintT p pos n = .error PyErr.interpretError := by
  rw [readUintT, if_pos h]

theorem readUintT_ok {p : List Bool} {pos n : ℕ}
    (h : pySlice p pos (pos + n) ≠ []) :
    readUintT p pos n = .ok (bitsToNat (pySlice p pos (pos + n))) := by
  rw [readUintT, if_neg h]

/-- libssr.py lines 502-526, `decode_has_cksub`: after the initial length
check and the guarded validity-interval / subset-count reads, the first
iteration of the subset loop reads the 4-bit GNSS id and the 2-bit
multiplier raw value (each a truncating slice whose `.uint` raises
`InterpretError` when empty) and then executes `multiplier[i] = ...` —
but no variable `multiplier` is ever defined in this function, so Python
raises `NameError` at that assignment (the undefined `gsys` in the trace
f-string further down is never reached).  The subset count is a 2-bit
field plus one, hence at least 1, so the loop body always runs; the
function can therefore never proceed past this point, which the embedding
reflects by ending in the raised error. -/
def decode_has_cksub (s : SsrState) (payload : List Bool) (pos : ℕ) :
    Except PyErr (ℕ × SsrState) :=
  if payload.length < pos + 4 + 2 then .ok (0, s)
  else
    let _vi := bitsToNat (pySlice payload pos (pos + 4))
    let _ns := bitsToNat (pySlice payload (pos + 4) (pos + 6)) + 1
    do
      let _gnss ← readUintT payload (pos + 6) 4
      let _mul ← readUintT payload (pos + 10) 2
      .error .nameError

/-- Claim C9, counterexample.  A payload of exactly `pos + 6` bits passes
the initial length check but raises `InterpretError`, not the claimed
`NameError`: the first subset's GNSS-id slice is empty. -/
theorem C9_counterexample :
    decode_has_cksub {} (List.replicate 6 false) 0 =
      .error PyErr.interpretError ∧
    PyErr.interpretError ≠ PyErr.nameError :=
  ⟨rfl, by decide⟩

/-- Claim C9, amended.  For every payload passing the initial length
check (at least 6 bits after the starting position), `decode_has_cksub`
raises an unhandled exception on the first iteration of its subset loop
and never returns: the `NameError` at the undefined `multiplier`
assignment whenever at least 5 further bits follow the 6-bit prefix, and
an empty-slice `InterpretError` when the payload ends inside the first
subset's GNSS-id/multiplier reads. -/
theorem C9_thm (s : SsrState) (payload : List Bool) (pos : ℕ)
    (h : pos + 6 ≤ payload.length) :
    (decode_has_cksub s payload pos = .error PyErr.nameError ∨
     decode_has_cksub s payload pos = .error PyErr.interpretError) ∧
    (pos + 11 ≤ payload.length →
      decode_has_cksub s payload pos = .error PyErr.nameError) := by
  by_cases h1 : pySlice payload (pos + 6) (pos + 6 + 4) = []
  · have hd : decode_has_cksub s payload pos = .error PyErr.interpretError := by
      unfold decode_has_cksub
      rw [if_neg (by omega)]
      simp only [readUintT_empty h1]
      rfl
    refine ⟨Or.inr hd, fun h11 => ?_⟩
    rw [pySlice_eq_nil_iff] at h1
    omega
  · by_cases h2 : pySlice payload (pos + 10) (pos + 10 + 2) = []
    · have hd : decode_has_cksub s payload pos =
          .error PyErr.interpretError := by
        unfold decode_has_cksub
        rw [if_neg (by omega)]
        simp only [readUintT_ok h1, readUintT_empty h2]
        rfl
      refine ⟨Or.inr hd, fun h11 => ?_⟩
      rw [pySlice_eq_nil_iff] at h2
      omega
    · have hd : decode_has_cksub s payload pos = .error PyErr.nameError := by
        unfold decode_has_cksub
        rw [if_neg (by omega)]
        simp only [readUintT_ok h1, readUintT_ok h2]
        rfl
      exact ⟨Or.inl hd, fun _ => hd⟩

/-- Claim C9, witness for `C9_thm` on an 11-bit payload. -/
theorem C9_thm_witness :
    decode_has_cksub {} (List.replicate 11 false) 0 =
      .error PyErr.nameError :=
  (C9_thm {} (List.replicate 11 false) 0 (by decide)).2 (by decide)

/-- The raw GPS ephemeris fields read by `decode_ephemerides` for
`satsys == 'G'` (libeph.py lines 137-167), as integers (`.u`/`.i` applied
at read time); `gpsc` is kept as the raw 2-bit slice like the source. -/
structure GpsEphRaw where
  svid : ℕ
  wn : ℕ
  sva : ℕ
  gpsc : List Bool
  idot : ℤ
  iode : ℕ
  toc : ℕ
  af2 : ℤ
  af1 : ℤ
  af0 : ℤ
  iodc : ℕ
  crs : ℤ
  dn : ℤ
  m0 : ℤ
  cuc : ℤ
  e : ℕ
  cus : ℤ
  a12 : ℕ
  toe : ℕ
  cic : ℤ
  omg0 : ℤ
  cis : ℤ
  i0 : ℤ
  crc : ℤ
  omg : ℤ
  omgd : ℤ
  tgd : ℤ
  svh : ℕ
  l2p : ℕ
  fi : ℕ
deriving DecidableEq, Inhabited

/-- libeph.py lines 137-167: the GPS branch of `decode_ephemerides`,
reading the fixed 476-bit DF009-DF137 layout from a bit stream whose
`read` raises `ReadError` past the end.  The trace-message construction
is not modelled. -/
def decode_eph_G (payload : List Bool) (pos : ℕ) :
    Except PyErr (ℕ × GpsEphRaw) := do
  let svid ← readS payload pos 6
  let wn ← readS payload (pos + 6) 10
  let sva ← readS payload (pos + 16) 4
  let gpsc ← readS payload (pos + 20) 2
  let idot ← readS payload (pos + 22) 14
  let iode ← readS payload (pos + 36) 8
  let toc ← readS payload (pos + 44) 16
  let af2 ← readS payload (pos + 60) 8
  let af1 ← readS payload (pos + 68) 16
  let af0 ← readS payload (pos + 84) 22
  let iodc ← readS payload (pos + 106) 10
  let crs ← readS payload (pos + 116) 16
  let dn ← readS payload (pos + 132) 16
  let m0 ← readS payload (pos + 148) 32
  let cuc ← readS payload (pos + 180) 16
  let e ← readS payload (pos + 196) 32
  let cus ← readS payload (pos + 228) 16
  let a12 ← readS payload (pos + 244) 32
  let toe ← readS payload (pos + 276) 16
  let cic ← readS payload (pos + 292) 16
  let omg0 ← readS payload (pos + 308) 32
  let cis ← readS payload (pos + 340) 16
  let i0 ← readS payload (pos + 356) 32
  let crc ← readS payload (pos + 388) 16
  let omg ← readS payload (pos + 404) 32
  let omgd ← readS payload (pos + 436) 24
  let tgd ← readS payload (pos + 460) 8
  let svh ← readS payload (pos + 468) 6
  let l2p ← readS payload (pos + 474) 1
  let fi ← readS payload (pos + 475) 1
  return (pos + 476,
    ⟨bitsToNat svid, bitsToNat wn, bitsToNat sva, gpsc, bitsToInt idot,
     bitsToNat iode, bitsToNat toc, bitsToInt af2, bitsToInt af1,
     bitsToInt af0, bitsToNat iodc, bitsToInt crs, bitsToInt dn,
     bitsToInt m0, bitsToInt cuc, bitsToNat e, bitsToInt cus,
     bitsToNat a12, bitsToNat toe, bitsToInt cic, bitsToInt omg0,
     bitsToInt cis, bitsToInt i0, bitsToInt crc, bitsToInt omg,
     bitsToInt omgd, bitsToInt tgd, bitsToNat svh, bitsToNat l2p,
     bitsToNat fi⟩)

/-- libeph.py line 24: `PI = 3.1415926535898`, the circle-ratio constant
the source multiplies semicircle fields by. -/
def PI : ℚ := 31415926535898 / 10 ^ 13

/-- libeph.py line 91 (`EphData.__init__`): mean anomaly
`m0 = raw * 2**(-31) * PI`. -/
def eph_m0 (i : ℤ) : ℚ := (i : ℚ) * (1 / 2 ^ 31) * PI

/-- libeph.py line 92 (`EphData.__init__`): eccentricity
`e = raw * 2**(-33)`. -/
def eph_e (u : ℕ) : ℚ := (u : ℚ) * (1 / 2 ^ 33)

/-- libeph.py line 93 (`EphData.__init__`): square root of the semi-major
axis `a12 = raw * 2**(-19)`. -/
def eph_a12 (u : ℕ) : ℚ := (u : ℚ) * (1 / 2 ^ 19)

/-- libeph.py line 108 (`EphData.__init__`): clock bias
`af0 = raw * 2**(-34)`. -/
def eph_af0 (i : ℤ) : ℚ := (i : ℚ) * (1 / 2 ^ 34)

/-- A 476-bit GPS ephemeris payload: svid = 1, the 22-bit `af0` field all
ones, every other field zero. -/
def ephPayload : List Bool :=
  bitsOfNat 6 1 ++ List.replicate 78 false ++ List.replicate 22 true ++
  List.replicate 370 false

/-- The raw record decoded from `ephPayload`. -/
def ephRaw1 : GpsEphRaw :=
  match decode_eph_G ephPayload 0 with
  | .ok (_, r) => r
  | .error _ => default

set_option maxRecDepth 8000 in
/-- Claim C7: the GPS ephemeris raw-to-physical scalings are exact and
fixed per field — eccentricity raw times 2 to the -33 (so a raw of 2^33
scales to exactly 1), semi-major-axis root raw times 2 to the -19, mean
anomaly raw times 2 to the -31 times the source's PI constant, af0 raw
times 2 to the -34; and per the GPS read layout an all-ones 22-bit af0
field decodes as two's-complement -1, scaling to -2^(-34), which is not
the INVALID value 0 (ephemeris decoding applies no sentinel mapping at
all). -/
theorem C7_thm :
    (∀ u : ℕ, eph_e u = (u : ℚ) / 2 ^ 33) ∧
    eph_e (2 ^ 33) = 1 ∧
    (∀ u : ℕ, eph_a12 u = (u : ℚ) / 2 ^ 19) ∧
    (∀ i : ℤ, eph_m0 i = (i : ℚ) * PI / 2 ^ 31) ∧
    (∀ i : ℤ, eph_af0 i = (i : ℚ) / 2 ^ 34) ∧
    bitsToInt (List.replicate 22 true) = -1 ∧
    decode_eph_G ephPayload 0 = .ok (476, ephRaw1) ∧
    ephRaw1.svid = 1 ∧
    ephRaw1.af0 = -1 ∧
    eph_af0 ephRaw1.af0 = -(1 / 2 ^ 34) ∧
    eph_af0 ephRaw1.af0 ≠ ((INVALID : ℤ) : ℚ) := by
  have haf0 : ephRaw1.af0 = -1 := by decide
  refine ⟨?_, ?_, ?_, ?_, ?_, by decide, rfl, by decide, haf0, ?_, ?_⟩
  · intro u; rw [eph_e]; ring
  · rw [eph_e]; push_cast; norm_num
  · intro u; rw [eph_a12]; ring
  · intro i; rw [eph_m0]; ring
  · intro i; rw [eph_af0]; ring
  · rw [haf0, eph_af0]; norm_num
  · rw [haf0, eph_af0]; norm_num [INVALID]

end QzsL6
